import Mathlib

/-!
Verification of the FastPan file server (src/fastpan.py) against its
natural-language specification.

The embedding models filesystem paths as lists of components (an absolute
path `/srv/storage` is `["srv", "storage"]`); `Path.resolve()` is modelled
as lexical resolution of `.` and `..` components (symlinks are not
modelled).  Machine state that lives in Python module globals (`TOKENS`,
`SHARES`, the storage directory) is passed explicitly.  The SHA-256 digest
used by `hash_pw` is modelled by an arbitrary function parameter `H`;
theorems that need collision-freedom state it as an injectivity hypothesis.
-/

set_option autoImplicit false

namespace FastPan

/-- Default of the `SECRET_KEY` environment variable (fastpan.py line 30). -/
def SECRET_KEY : String := "fastpan-secret"

/-- Default of the `BASE_URL` environment variable (fastpan.py line 22). -/
def BASE_URL : String := "http://127.0.0.1:8000"

/-- Association-list lookup, modelling Python `dict.get` /
`key in dict` on the module-global tables. -/
def alookup {κ α : Type} [DecidableEq κ] : List (κ × α) → κ → Option α
  | [], _ => none
  | (k, v) :: rest, key => if k = key then some v else alookup rest key

/-! ## PathResolver: `safe_path` (fastpan.py lines 36-41) -/

/-- Python `rel.lstrip("/")`: drop all leading slash characters. -/
def lstripSlash (s : String) : String :=
  String.mk (s.data.dropWhile fun c => c = '/')

/-- Splitting a relative path string on `/` into components, as
`pathlib` does when `STORAGE / rel` is formed. -/
def splitSlashAux : List Char → List Char → List String
  | cur, [] => [String.mk cur.reverse]
  | cur, c :: rest =>
    if c = '/' then String.mk cur.reverse :: splitSlashAux [] rest
    else splitSlashAux (c :: cur) rest

/-- Split a string into `/`-separated components. -/
def splitSlash (s : String) : List String := splitSlashAux [] s.data

/-- Lexical part of `Path.resolve()`: starting from the (already
canonical, absolute) accumulator, empty and `.` components are dropped,
`..` removes the last component (staying at the filesystem root when
there is none), and ordinary components are appended. -/
def resolveComponents : List String → List String → List String
  | acc, [] => acc
  | acc, c :: rest =>
    if c = "" ∨ c = "." then resolveComponents acc rest
    else if c = ".." then resolveComponents acc.dropLast rest
    else resolveComponents (acc ++ [c]) rest

/-- `str(p)` for an absolute path given by its components:
`pathStr ["srv", "storage"] = "/srv/storage"`. -/
def pathStr (cs : List String) : String :=
  cs.foldl (fun acc c => acc ++ "/" ++ c) ""

/-- Python `str.startswith`. -/
def startswith (p s : String) : Bool := p.data.isPrefixOf s.data

/-- `safe_path` (fastpan.py lines 36-41): strip leading slashes, join to
the storage root, canonicalize, then accept iff
`str(p).startswith(str(STORAGE.resolve()))`.  `storage` is the canonical
absolute component list of the storage root; `none` models the raised
`ValueError("非法路径")`. -/
def safe_path (storage : List String) (rel : String) : Option (List String) :=
  let p := resolveComponents storage (splitSlash (lstripSlash rel))
  if startswith (pathStr storage) (pathStr p) then some p else none

/-! ## SessionAuthenticator: `is_login` (fastpan.py lines 43-45) -/

/-- `is_login` (fastpan.py lines 43-45): the request's `token` cookie must
be a key of the `TOKENS` table with expiry strictly after `time.time()`. -/
def is_login (tokens : List (String × Int)) (cookie : Option String)
    (now : Int) : Bool :=
  match cookie with
  | none => false
  | some t =>
    match alookup tokens t with
    | none => false
    | some e => now < e

/-! ## CredentialHasher: `hash_pw` (fastpan.py lines 68-69) -/

/-- `hash_pw` (fastpan.py lines 68-69):
`sha256((pw + SECRET_KEY).encode()).hexdigest()`.  The SHA-256 hex digest
is modelled by the function parameter `H` applied to the concatenation. -/
def hash_pw (H : String → String) (pw : String) : String :=
  H (pw ++ SECRET_KEY)

/-! ## ShareStore data model (the `SHARES` dict entries) -/

/-- One entry of the `SHARES` table: the dict
`{"path": ..., "exp": ..., "pw_hash": ...}` built in `share`
(fastpan.py lines 517-519); `pw_hash` is present only when a password was
supplied, `exp` is `None` for permanent links. -/
structure ShareEntry where
  path : String
  exp : Option Int
  pw_hash : Option String
deriving DecidableEq, Repr

/-- The in-memory `SHARES` mapping (fastpan.py line 28), token-keyed. -/
abbrev Store := List (String × ShareEntry)

/-- Python dict assignment `SHARES[t] = entry`. -/
def storeInsert (t : String) (e : ShareEntry) (s : Store) : Store :=
  (t, e) :: s.filter fun kv => kv.1 != t

/-- `SHARES.get(token)`. -/
def storeGet (s : Store) (t : String) : Option ShareEntry := alookup s t

/-- Python truthiness-guarded expiry test `exp and exp < now`, used both
by the redemption handlers (lines 529, 562, 581) and by the reaping loop
in `load_shares` (line 84): an absent expiry — and, through Python
falsiness, a zero one — never counts as expired. -/
def expTruthyLt (exp : Option Int) (now : Int) : Bool :=
  match exp with
  | none => false
  | some x => x != 0 && decide (x < now)

/-! ## ShareStore persistence (fastpan.py lines 71-94) -/

/-- JSON values as produced by `json.dump` of the `SHARES` dict. -/
inductive Json where
  | nullJ
  | str (s : String)
  | num (n : Int)
  | obj (fields : List (String × Json))

/-- Serialization of one share entry (the dict built at lines 517-519):
the `pw_hash` key is present only when a password hash is stored. -/
def encodeEntry (e : ShareEntry) : Json :=
  .obj ([("path", .str e.path),
         ("exp", match e.exp with | none => .nullJ | some x => .num x)] ++
        (match e.pw_hash with | none => [] | some h => [("pw_hash", .str h)]))

/-- Reading one entry back out of the parsed JSON, the way the handlers
access it: `d["path"]`, `d.get("exp")`, `d.get("pw_hash")`. -/
def decodeEntry (j : Json) : Option ShareEntry :=
  match j with
  | .obj fields =>
    match alookup fields "path" with
    | some (.str p) =>
      some { path := p,
             exp := match alookup fields "exp" with
                    | some (.num x) => some x
                    | _ => none,
             pw_hash := match alookup fields "pw_hash" with
                        | some (.str h) => some h
                        | _ => none }
    | _ => none
  | _ => none

/-- Decode every entry of the serialized token-keyed record set; any
malformed entry makes the whole parse fail (modelling a `json.load` or
shape error caught by the `except` in `load_shares`). -/
def decodeEntries : List (String × Json) → Option Store
  | [] => some []
  | (k, j) :: rest =>
    match decodeEntry j, decodeEntries rest with
    | some e, some s => some ((k, e) :: s)
    | _, _ => none

/-- Parse the whole share file. -/
def decodeShares (j : Json) : Option Store :=
  match j with
  | .obj fields => decodeEntries fields
  | _ => none

/-- `save_shares` (fastpan.py lines 90-94): serialize the full table
(the temp-file-plus-`os.replace` protocol is not modelled; only the
written contents are). -/
def save_shares (s : Store) : Json :=
  .obj (s.map fun kv => (kv.1, encodeEntry kv.2))

/-- Reaping loop of `load_shares` (fastpan.py lines 80-86): delete every
entry whose `exp` is truthy and in the past. -/
def pruneShares (s : Store) (now : Int) : Store :=
  s.filter fun kv => !expTruthyLt kv.2.exp now

/-- `load_shares` (fastpan.py lines 71-88): if the share file exists,
parse it, falling back to an empty table on any parse failure; if it does
not exist, keep the prior in-memory table; then reap expired entries.
`file = none` models a missing file, `some j` a file holding `j`. -/
def load_shares (prior : Store) (file : Option Json) (now : Int) : Store :=
  let s : Store :=
    match file with
    | none => prior
    | some j =>
      match decodeShares j with
      | some m => m
      | none => []
  pruneShares s now

/-- The module-level initialization `SHARES = {}` (fastpan.py line 28).
No call of `load_shares` appears anywhere in fastpan.py, so this is the
in-memory table a freshly started process runs with, whatever the durable
share file holds. -/
def startupShares : Store := []

/-- `SHARE_FILE = STORAGE / "shares.json"` (fastpan.py line 31): the
durable share file lives directly inside the storage root. -/
def SHARE_FILE (storage : List String) : List String :=
  storage ++ ["shares.json"]

/-! ## Filesystem model and the download endpoint -/

/-- The file tree under the filesystem root: a map from absolute file
paths (component lists) to file contents.  Directories are implicit:
a path is a directory when some stored file lies strictly below it. -/
abbrev Fs := List (List String × String)

/-- `Path.is_dir()` in this model: some stored file lies strictly under
`p`. -/
def isDir (fs : Fs) (p : List String) : Bool :=
  fs.any fun kv => p.isPrefixOf kv.1 && kv.1 != p

/-- Reading a stored file; `none` when no file is stored at `p`. -/
def readFile (fs : Fs) (p : List String) : Option String := alookup fs p

/-- `zip_dir` (fastpan.py lines 59-66): every stored file under `path`,
archived under its path relative to `path`. -/
def zip_dir (fs : Fs) (p : List String) : List (List String × String) :=
  (fs.filter fun kv => p.isPrefixOf kv.1 && kv.1 != p).map
    fun kv => (kv.1.drop p.length, kv.2)

/-- Result of the `/download/` route: `violation` models the unhandled
`ValueError` from `safe_path`; a directory is streamed as a zip archive;
a file is served via `FileResponse` (whose content is `none` when no such
file exists on disk). -/
inductive DlResult where
  | violation
  | zipped (entries : List (List String × String))
  | file (content : Option String)
deriving DecidableEq, Repr

/-- `download` (fastpan.py lines 502-509): resolve through `safe_path`,
then zip a directory or serve a single file. -/
def download (fs : Fs) (storage : List String) (path : String) : DlResult :=
  match safe_path storage path with
  | none => .violation
  | some p => if isDir fs p then .zipped (zip_dir fs p) else .file (readFile fs p)

/-- The full handling of a `GET /download/{path}` request carrying the
session table, cookie and clock of the moment of the request.  The route
(fastpan.py lines 502-509) declares no `Request` parameter and never
calls `is_login`, so the session arguments are not consulted. -/
def handle_download (sessionTokens : List (String × Int))
    (cookie : Option String) (now : Int)
    (fs : Fs) (storage : List String) (path : String) : DlResult :=
  download fs storage path

/-! ## ShareTokenService: issuance (fastpan.py lines 511-523) -/

/-- `share` (fastpan.py lines 511-523): build the entry — expiry
`now + ttl` when `ttl and ttl > 0`, else `None`; password hash only when
`pw` is non-empty — store it under the fresh token `t`, persist, and
return the entry together with the public URL.  The handler calls
neither `is_login` nor `safe_path`. -/
def share_endpoint (H : String → String) (store : Store) (t : String)
    (path : String) (ttl : Int) (pw : String) (now : Int) :
    Store × ShareEntry × String :=
  let exp : Option Int := if ttl ≠ 0 ∧ 0 < ttl then some (now + ttl) else none
  let entry : ShareEntry :=
    { path := path, exp := exp,
      pw_hash := if pw ≠ "" then some (hash_pw H pw) else none }
  (storeInsert t entry store, entry, BASE_URL ++ "/s/" ++ t)

/-- The full handling of a `GET /share/{path}` request carrying the
session table and cookie of the requester.  The route (fastpan.py line
512) declares no `Request` parameter, so the session arguments are not
consulted: issuance proceeds identically for every caller. -/
def handle_share (H : String → String) (sessionTokens : List (String × Int))
    (cookie : Option String) (store : Store) (t : String)
    (path : String) (ttl : Int) (pw : String) (now : Int) :
    Store × ShareEntry × String :=
  share_endpoint H store t path ttl pw now

/-! ## ShareTokenService: redemption (fastpan.py lines 577-585) -/

/-- Outcome of a redemption request: an error page with its HTTP status
and body, or the download of the entry's target path. -/
inductive RedeemOutcome where
  | page (status : Nat) (body : String)
  | serve (result : DlResult)
deriving DecidableEq, Repr

/-- `download_share_post` (fastpan.py lines 577-585): unknown token →
404 "链接已失效"; expired token → 404 "链接已失效"; truthy `pw_hash` with
absent/empty or non-matching password → 403 "密码错误"; otherwise serve
`download(d["path"])`.  The handler never mutates `SHARES`, so the store
is returned unchanged. -/
def download_share_post (H : String → String) (fs : Fs)
    (storage : List String) (store : Store) (token : String)
    (pw : Option String) (now : Int) : RedeemOutcome × Store :=
  match storeGet store token with
  | none => (.page 404 "链接已失效", store)
  | some d =>
    if expTruthyLt d.exp now then (.page 404 "链接已失效", store)
    else
      match d.pw_hash with
      | some h =>
        if h = "" then (.serve (download fs storage d.path), store)
        else if pw.getD "" = "" ∨ hash_pw H (pw.getD "") ≠ h then
          (.page 403 "密码错误", store)
        else (.serve (download fs storage d.path), store)
      | none => (.serve (download fs storage d.path), store)

/-! ## Supporting lemmas -/

/-- The accumulator of the `pathStr` fold persists as a character-level
prefix of the final string. -/
theorem data_pathStr_foldl (t : List String) (acc : String) :
    acc.data <+: (t.foldl (fun a c => a ++ "/" ++ c) acc).data := by
  induction t generalizing acc with
  | nil => exact List.prefix_refl _
  | cons c t ih =>
    simp only [List.foldl_cons]
    have hstep : acc.data <+: (acc ++ "/" ++ c).data := by
      simp only [String.data_append, List.append_assoc]
      exact List.prefix_append _ _
    exact hstep.trans (ih _)

/-- The string form of a component-wise descendant of `s` passes the
naive `startswith` test against the string form of `s`. -/
theorem startswith_pathStr_append (s t : List String) :
    startswith (pathStr s) (pathStr (s ++ t)) = true := by
  unfold startswith pathStr
  rw [List.foldl_append]
  exact List.isPrefixOf_iff_prefix.mpr (data_pathStr_foldl t _)

/-- Looking up the freshly assigned token finds the fresh entry. -/
theorem storeGet_storeInsert (t : String) (e : ShareEntry) (s : Store) :
    storeGet (storeInsert t e s) t = some e := by
  simp [storeGet, storeInsert, alookup]

/-- An entry that tests expired keeps testing expired at every later
instant. -/
theorem expTruthyLt_mono (exp : Option Int) (now now2 : Int)
    (h : now ≤ now2) (he : expTruthyLt exp now = true) :
    expTruthyLt exp now2 = true := by
  cases exp with
  | none => simp [expTruthyLt] at he
  | some x =>
    simp only [expTruthyLt, Bool.and_eq_true, bne_iff_ne, ne_eq,
      decide_eq_true_eq] at he ⊢
    exact ⟨he.1, lt_of_lt_of_le he.2 h⟩

/-- Characterization of a redemption once the token lookup is known. -/
theorem download_share_post_eq (H : String → String) (fs : Fs)
    (storage : List String) (store : Store) (tk : String)
    (pw : Option String) (now : Int) (d : ShareEntry)
    (hget : storeGet store tk = some d) :
    download_share_post H fs storage store tk pw now =
      (if expTruthyLt d.exp now then (.page 404 "链接已失效", store)
       else
         match d.pw_hash with
         | some h =>
           if h = "" then (.serve (download fs storage d.path), store)
           else if pw.getD "" = "" ∨ hash_pw H (pw.getD "") ≠ h then
             (.page 403 "密码错误", store)
           else (.serve (download fs storage d.path), store)
         | none => (.serve (download fs storage d.path), store)) := by
  unfold download_share_post
  rw [hget]

/-- Unfolding step of the resolver on an ordinary component. -/
theorem resolveComponents_plain (acc : List String) (c : String)
    (rest : List String) (h1 : ¬(c = "" ∨ c = ".")) (h2 : ¬(c = "..")) :
    resolveComponents acc (c :: rest) = resolveComponents (acc ++ [c]) rest := by
  simp only [resolveComponents]
  rw [if_neg h1, if_neg h2]

/-- One serialized entry parses back to itself. -/
theorem decodeEntry_encodeEntry (e : ShareEntry) :
    decodeEntry (encodeEntry e) = some e := by
  obtain ⟨p, exp, ph⟩ := e
  cases exp <;> cases ph <;> rfl

/-- The serialized record set parses back to itself. -/
theorem decodeShares_save_shares (s : Store) :
    decodeShares (save_shares s) = some s := by
  unfold decodeShares save_shares
  induction s with
  | nil => rfl
  | cons kv rest ih =>
    simp only [List.map_cons, decodeEntries, decodeEntry_encodeEntry]
    simp only [List.map] at ih
    rw [ih]

/-- Persist-then-reload round trip of the share store: reloading the
saved table (as on a restart, had `load_shares` been invoked) yields
exactly the live entries. -/
theorem load_shares_roundtrip (prior s : Store) (now : Int) :
    load_shares prior (some (save_shares s)) now = pruneShares s now := by
  simp only [load_shares, decodeShares_save_shares]

/-- Membership in the pruned store is membership among the live entries,
with the entry (target path and password hash included) unchanged. -/
theorem pruneShares_mem (s : Store) (now : Int) (k : String)
    (e : ShareEntry) :
    (k, e) ∈ pruneShares s now ↔
      (k, e) ∈ s ∧ expTruthyLt e.exp now = false := by
  simp [pruneShares, List.mem_filter]

/-- Appending the fixed server secret is injective, so distinct passwords
feed distinct inputs to the digest function. -/
theorem append_SECRET_KEY_injective :
    Function.Injective fun s : String => s ++ SECRET_KEY := by
  intro a b h
  apply String.ext
  have h2 : a.data ++ SECRET_KEY.data = b.data ++ SECRET_KEY.data := by
    have h3 := congrArg String.data h
    simpa [String.data_append] using h3
  exact List.append_left_injective _ h2

/-! ## Claim theorems -/

/-- C1 (counterexample): `safe_path` is claimed to reject every path with
escaping `..` segments and to confine every accepted path, via a boundary
check immune to the `storage`/`storage2` sibling confusion.  With root
`/srv/storage`, the relative path `../storage2/secret.txt` resolves to
`/srv/storage2/secret.txt` — a sibling of the root, not a descendant —
yet `safe_path` accepts it, because `"/srv/storage2/secret.txt"` starts
with the string `"/srv/storage"`. -/
theorem C1_counterexample :
    safe_path ["srv", "storage"] "../storage2/secret.txt" =
      some ["srv", "storage2", "secret.txt"] ∧
    ¬ (["srv", "storage"] <+: ["srv", "storage2", "secret.txt"]) := by
  refine ⟨by decide, ?_⟩
  rintro ⟨t, ht⟩
  injection ht with h1 h2
  injection h2 with h3 h4
  exact absurd h3 (by decide)

/-- C1 (amended): `safe_path` canonicalizes the path joined to the
storage root and accepts it iff the canonical result's string
representation starts with the canonical root's string representation —
a naive string-prefix check, not a boundary check.  Hence every accepted
path's canonical string extends the root's string (but may name a sibling
such as `storage2`), and every path whose canonical form is the root or a
component-wise descendant of the root is accepted. -/
theorem C1_claim (storage : List String) (rel : String) :
    (∀ p, safe_path storage rel = some p →
        startswith (pathStr storage) (pathStr p) = true) ∧
    (storage <+: resolveComponents storage (splitSlash (lstripSlash rel)) →
        safe_path storage rel =
          some (resolveComponents storage (splitSlash (lstripSlash rel)))) := by
  constructor
  · intro p h
    simp only [safe_path] at h
    by_cases hc : startswith (pathStr storage)
        (pathStr (resolveComponents storage (splitSlash (lstripSlash rel)))) = true
    · rw [if_pos hc] at h
      obtain rfl := Option.some.inj h
      exact hc
    · rw [if_neg hc] at h
      exact absurd h (by simp)
  · rintro ⟨t, ht⟩
    simp only [safe_path]
    rw [if_pos]
    rw [← ht]
    exact startswith_pathStr_append storage t

/-- Witness for C1: a plain in-root path is accepted and resolves under
the root. -/
theorem C1_witness :
    safe_path ["srv", "storage"] "docs/a.txt" =
      some ["srv", "storage", "docs", "a.txt"] := by
  have h := (C1_claim ["srv", "storage"] "docs/a.txt").2
    ⟨["docs", "a.txt"], by decide⟩
  exact h.trans (by decide)

/-- C2 (counterexample): the claim says an authenticated `Issue` of a
path that escapes the root fails with PathViolation and creates no entry.
In fact the `share` route never calls `safe_path`: with a valid session,
sharing `../etc/passwd` — a path `safe_path` itself rejects — creates and
persists an entry holding that raw path. -/
theorem C2_counterexample :
    is_login [("sess", 1000)] (some "sess") 100 = true ∧
    safe_path ["srv", "storage"] "../etc/passwd" = none ∧
    (handle_share (fun s => s) [("sess", 1000)] (some "sess") []
        "tok1" "../etc/passwd" 0 "" 100).1 =
      [("tok1", { path := "../etc/passwd", exp := none, pw_hash := none })] := by
  decide

/-- C2 (amended): `Issue` performs no path validation at issuance time —
it never invokes the path resolver and never checks existence; for every
supplied path, escaping or not, an entry holding the raw path is created
and persisted, and the path is only resolved later, at redemption. -/
theorem C2_claim (H : String → String) (toks : List (String × Int))
    (cookie : Option String) (store : Store) (t path : String)
    (ttl : Int) (pw : String) (now : Int) :
    storeGet (handle_share H toks cookie store t path ttl pw now).1 t =
      some (handle_share H toks cookie store t path ttl pw now).2.1 ∧
    (handle_share H toks cookie store t path ttl pw now).2.1.path = path := by
  exact ⟨storeGet_storeInsert t _ store, rfl⟩

/-- C3 (counterexample): the claim says an unauthenticated `Issue` fails
with Unauthorized and creates no entry.  In fact the `share` route never
calls `is_login`: with no session at all, issuing a share for
`docs/report.pdf` creates and persists an entry. -/
theorem C3_counterexample :
    is_login [] none 100 = false ∧
    (handle_share (fun s => s) [] none [] "tok2" "docs/report.pdf" 0 "" 100).1 =
      [("tok2", { path := "docs/report.pdf", exp := none, pw_hash := none })] := by
  decide

/-- C3 (amended): `Issue` does not require an authenticated caller — the
route declares no request parameter and never consults the session table,
so its outcome is identical for every session state, and a share entry is
created and persisted for any caller whatsoever. -/
theorem C3_claim (H : String → String)
    (toks toks2 : List (String × Int)) (cookie cookie2 : Option String)
    (store : Store) (t path : String) (ttl : Int) (pw : String) (now : Int) :
    handle_share H toks cookie store t path ttl pw now =
      handle_share H toks2 cookie2 store t path ttl pw now ∧
    (storeGet (handle_share H toks cookie store t path ttl pw now).1 t).isSome
      = true := by
  refine ⟨rfl, ?_⟩
  rw [show (handle_share H toks cookie store t path ttl pw now).1 =
      storeInsert t (handle_share H toks cookie store t path ttl pw now).2.1
        store from rfl]
  rw [storeGet_storeInsert]
  rfl

/-- C4 (code bug): the spec says the share store is loaded from the
durable file at startup and survives restart; `load_shares` (lines 71-88)
implements exactly that, round-tripping the saved live entries — but no
call of `load_shares()` exists anywhere in fastpan.py, so a restarted
process runs with `SHARES = {}` (line 28): here, with a durable file
holding the live entry `"t"`, the startup table is empty, `load_shares`
applied to that file would have recovered the entry, and after the first
post-restart issuance the store that will be persisted no longer contains
`"t"`. -/
theorem C4_claim :
    startupShares = [] ∧
    load_shares startupShares
        (some (save_shares
          [("t", { path := "a.txt", exp := none, pw_hash := none })])) 100 =
      [("t", { path := "a.txt", exp := none, pw_hash := none })] ∧
    storeGet (share_endpoint (fun s => s) startupShares
        "t2" "b.txt" 0 "" 100).1 "t" = none := by
  decide

/-- C5: the `/download/` route is public — it declares no request
parameter and never consults the session table, so its outcome is
identical for every session state and cookie; for every stored path
within the root it serves the file's content, and for a directory the
zip archive, with no session, token or password required. -/
theorem C5_claim (toks toks2 : List (String × Int))
    (cookie cookie2 : Option String) (now now2 : Int)
    (fs : Fs) (storage : List String) (path : String) :
    handle_download toks cookie now fs storage path =
      handle_download toks2 cookie2 now2 fs storage path ∧
    (∀ p c, safe_path storage path = some p → isDir fs p = false →
        readFile fs p = some c →
        handle_download toks cookie now fs storage path = .file (some c)) ∧
    (∀ p, safe_path storage path = some p → isDir fs p = true →
        handle_download toks cookie now fs storage path =
          .zipped (zip_dir fs p)) := by
  refine ⟨rfl, ?_, ?_⟩
  · intro p c hsp hdir hread
    simp [handle_download, download, hsp, hdir, hread]
  · intro p hsp hdir
    simp [handle_download, download, hsp, hdir]

/-- Witness for C5: an anonymous request (no valid session) downloads a
stored in-root file's content. -/
theorem C5_witness :
    handle_download [("s", 1)] (some "s") 0
      [(["srv", "storage", "docs", "a.txt"], "hello")]
      ["srv", "storage"] "docs/a.txt" = .file (some "hello") := by
  exact (C5_claim [("s", 1)] [] (some "s") none 0 5
      [(["srv", "storage", "docs", "a.txt"], "hello")]
      ["srv", "storage"] "docs/a.txt").2.1
    ["srv", "storage", "docs", "a.txt"] "hello" (by decide) (by decide)
    (by decide)

/-- C6 (counterexample): the claim says an expired redemption reaps the
entry so a subsequent `Get` shows it gone.  Redeeming the expired token
`"tk"` fails, but the handler leaves the store untouched: the store
component of the result is the unchanged table and `Get` still finds the
entry. -/
theorem C6_counterexample :
    download_share_post (fun s => s) [] ["srv", "storage"]
        [("tk", { path := "a.txt", exp := some 50, pw_hash := none })]
        "tk" none 100 =
      (.page 404 "链接已失效",
        [("tk", { path := "a.txt", exp := some 50, pw_hash := none })]) ∧
    storeGet [("tk", { path := "a.txt", exp := some 50, pw_hash := none })]
        "tk" =
      some { path := "a.txt", exp := some 50, pw_hash := none } := by
  decide

/-- C6 (amended): for every share entry whose expiry is set, nonzero and
not in the future, redemption fails — with the generic invalid-link
response — and the entry is NOT reaped: the handler returns the store
unchanged, the same token still resolves via `Get`, and re-checking at
any later instant deterministically keeps failing; entries are only
reaped by `load_shares`. -/
theorem C6_claim (H : String → String) (fs : Fs) (storage : List String)
    (store : Store) (tk : String) (pw : Option String) (now : Int)
    (d : ShareEntry) (hget : storeGet store tk = some d)
    (hexp : expTruthyLt d.exp now = true) :
    download_share_post H fs storage store tk pw now =
      (.page 404 "链接已失效", store) ∧
    storeGet (download_share_post H fs storage store tk pw now).2 tk =
      some d ∧
    (∀ now2, now ≤ now2 →
      download_share_post H fs storage store tk pw now2 =
        (.page 404 "链接已失效", store)) := by
  have hmain : ∀ n, expTruthyLt d.exp n = true →
      download_share_post H fs storage store tk pw n =
        (.page 404 "链接已失效", store) := by
    intro n hn
    rw [download_share_post_eq H fs storage store tk pw n d hget, if_pos hn]
  refine ⟨hmain now hexp, ?_,
    fun now2 h2 => hmain now2 (expTruthyLt_mono d.exp now now2 h2 hexp)⟩
  rw [hmain now hexp]
  exact hget

/-- Witness for C6 (amended): a concrete expired entry fails, stays in
the store, and keeps failing later. -/
theorem C6_witness :
    download_share_post (fun s => s) [] ["r"]
        [("tk", { path := "a.txt", exp := some 50, pw_hash := none })]
        "tk" none 100 =
      (.page 404 "链接已失效",
        [("tk", { path := "a.txt", exp := some 50, pw_hash := none })]) ∧
    storeGet (download_share_post (fun s => s) [] ["r"]
        [("tk", { path := "a.txt", exp := some 50, pw_hash := none })]
        "tk" none 100).2 "tk" =
      some { path := "a.txt", exp := some 50, pw_hash := none } ∧
    download_share_post (fun s => s) [] ["r"]
        [("tk", { path := "a.txt", exp := some 50, pw_hash := none })]
        "tk" none 777 =
      (.page 404 "链接已失效",
        [("tk", { path := "a.txt", exp := some 50, pw_hash := none })]) := by
  have h := C6_claim (fun s => s) [] ["r"]
    [("tk", { path := "a.txt", exp := some 50, pw_hash := none })]
    "tk" none 100 { path := "a.txt", exp := some 50, pw_hash := none }
    (by decide) (by decide)
  exact ⟨h.1, h.2.1, h.2.2 777 (by decide)⟩

/-- C7 (counterexample): the claim says unknown-token and expired-token
redemptions produce distinct outcomes.  An unknown token and an expired
token both produce the identical response, status 404 with the same
"链接已失效" body. -/
theorem C7_counterexample :
    (download_share_post (fun s => s) [] ["srv", "storage"] []
        "zz" none 100).1 =
      .page 404 "链接已失效" ∧
    (download_share_post (fun s => s) [] ["srv", "storage"]
        [("tk2", { path := "b.txt", exp := some 50, pw_hash := none })]
        "tk2" none 100).1 =
      .page 404 "链接已失效" := by
  decide

/-- C7 (amended): a missing or wrong password produces a distinct
outcome (403 "密码错误"), but an unknown token and an expired token
produce the identical generic response (404 "链接已失效"), not distinct
ones. -/
theorem C7_claim (H : String → String) (fs : Fs) (storage : List String)
    (store : Store) (tk : String) (pw : Option String) (now : Int) :
    (storeGet store tk = none →
      (download_share_post H fs storage store tk pw now).1 =
        .page 404 "链接已失效") ∧
    (∀ d, storeGet store tk = some d → expTruthyLt d.exp now = true →
      (download_share_post H fs storage store tk pw now).1 =
        .page 404 "链接已失效") ∧
    (∀ d h, storeGet store tk = some d → expTruthyLt d.exp now = false →
      d.pw_hash = some h → h ≠ "" →
      (pw.getD "" = "" ∨ hash_pw H (pw.getD "") ≠ h) →
      (download_share_post H fs storage store tk pw now).1 =
        .page 403 "密码错误") ∧
    RedeemOutcome.page 403 "密码错误" ≠ RedeemOutcome.page 404 "链接已失效" := by
  refine ⟨?_, ?_, ?_, by decide⟩
  · intro h
    unfold download_share_post
    rw [h]
  · intro d hg he
    rw [download_share_post_eq H fs storage store tk pw now d hg, if_pos he]
  · intro d h hg he hph hne hbad
    rw [download_share_post_eq H fs storage store tk pw now d hg]
    rw [if_neg (by simp [he]), hph]
    simp only []
    rw [if_neg hne, if_pos hbad]

/-- Witness for C7 (amended): unknown token, expired token, and wrong
password each evaluated concretely. -/
theorem C7_witness :
    (download_share_post (fun s => s) [] ["r"] [] "a" none 10).1 =
      .page 404 "链接已失效" ∧
    (download_share_post (fun s => s) [] ["r"]
        [("b", { path := "x", exp := some 5, pw_hash := none })]
        "b" none 10).1 =
      .page 404 "链接已失效" ∧
    (download_share_post (fun s => s) [] ["r"]
        [("c", { path := "x", exp := none, pw_hash := some "hh" })]
        "c" (some "bad") 10).1 =
      .page 403 "密码错误" := by
  refine ⟨(C7_claim (fun s => s) [] ["r"] [] "a" none 10).1 (by decide),
    (C7_claim (fun s => s) [] ["r"]
      [("b", { path := "x", exp := some 5, pw_hash := none })]
      "b" none 10).2.1 { path := "x", exp := some 5, pw_hash := none }
      (by decide) (by decide),
    (C7_claim (fun s => s) [] ["r"]
      [("c", { path := "x", exp := none, pw_hash := some "hh" })]
      "c" (some "bad") 10).2.2.1
      { path := "x", exp := none, pw_hash := some "hh" } "hh"
      (by decide) (by decide) (by decide) (by decide) (by decide)⟩

/-- C8: TTL semantics of issuance and redemption — a token issued with
`ttl <= 0` gets no expiry and its redemption never yields the expired
(404 invalid-link) response at any later instant; a token issued with
`ttl > 0` gets expiry exactly `now + ttl`. -/
theorem C8_claim (H : String → String) (store : Store) (t path : String)
    (ttl : Int) (pw : String) (now : Int) :
    (ttl ≤ 0 →
      (share_endpoint H store t path ttl pw now).2.1.exp = none ∧
      ∀ fs storage now2 pw2,
        (download_share_post H fs storage
            (share_endpoint H store t path ttl pw now).1 t pw2 now2).1 ≠
          .page 404 "链接已失效") ∧
    (0 < ttl →
      (share_endpoint H store t path ttl pw now).2.1.exp = some (now + ttl)) := by
  constructor
  · intro hle
    have hc : ¬(ttl ≠ 0 ∧ 0 < ttl) := fun h => absurd h.2 (by omega)
    have hexp : (share_endpoint H store t path ttl pw now).2.1.exp = none := by
      rw [show (share_endpoint H store t path ttl pw now).2.1.exp =
        (if ttl ≠ 0 ∧ 0 < ttl then some (now + ttl) else none) from rfl]
      rw [if_neg hc]
    refine ⟨hexp, ?_⟩
    intro fs storage now2 pw2
    have hget : storeGet (share_endpoint H store t path ttl pw now).1 t =
        some (share_endpoint H store t path ttl pw now).2.1 :=
      storeGet_storeInsert t _ store
    rw [download_share_post_eq H fs storage _ t pw2 now2 _ hget]
    rw [if_neg (by rw [hexp]; simp [expTruthyLt])]
    rw [show (share_endpoint H store t path ttl pw now).2.1.pw_hash =
      (if pw ≠ "" then some (hash_pw H pw) else none) from rfl]
    by_cases hpw : pw = ""
    · rw [if_neg (by simp [hpw])]
      simp
    · rw [if_pos hpw]
      simp only []
      by_cases h0 : hash_pw H pw = ""
      · rw [if_pos h0]; simp
      · rw [if_neg h0]
        by_cases hm : pw2.getD "" = "" ∨ hash_pw H (pw2.getD "") ≠ hash_pw H pw
        · rw [if_pos hm]; simp
        · rw [if_neg hm]; simp
  · intro hpos
    rw [show (share_endpoint H store t path ttl pw now).2.1.exp =
      (if ttl ≠ 0 ∧ 0 < ttl then some (now + ttl) else none) from rfl]
    rw [if_pos ⟨by omega, hpos⟩]

/-- Witness for C8: a permanent share (ttl 0) is still redeemable far in
the future, and a ttl-7 share issued at time 100 expires at 107. -/
theorem C8_witness :
    (share_endpoint (fun s => s) [] "t" "a" 0 "" 100).2.1.exp = none ∧
    (download_share_post (fun s => s) [] ["r"]
        (share_endpoint (fun s => s) [] "t" "a" 0 "" 100).1
        "t" none 999999).1 ≠ .page 404 "链接已失效" ∧
    (share_endpoint (fun s => s) [] "t" "a" 7 "" 100).2.1.exp = some 107 := by
  have h1 := (C8_claim (fun s => s) [] "t" "a" 0 "" 100).1 (by decide)
  have h2 := (C8_claim (fun s => s) [] "t" "a" 7 "" 100).2 (by decide)
  exact ⟨h1.1, h1.2 [] ["r"] 999999 none, h2⟩

/-- C9: password gating — for a live token issued with non-empty
password `P` (collisions of the keyed digest excluded by the injectivity
hypothesis, and the digest being non-empty as a SHA-256 hex digest always
is), redeeming with `P` proceeds to serve the target path, while
redeeming with any other password, the empty password included, or with
none at all, fails with the wrong-password response. -/
theorem C9_claim (H : String → String)
    (hInj : Function.Injective (hash_pw H))
    (store : Store) (t path : String) (ttl : Int) (P : String) (now : Int)
    (fs : Fs) (storage : List String) (now2 : Int)
    (hP : P ≠ "") (hh : hash_pw H P ≠ "")
    (hlive : expTruthyLt (share_endpoint H store t path ttl P now).2.1.exp
      now2 = false) :
    ((download_share_post H fs storage
        (share_endpoint H store t path ttl P now).1 t (some P) now2).1 =
      .serve (download fs storage path)) ∧
    (∀ Q, Q ≠ P →
      (download_share_post H fs storage
          (share_endpoint H store t path ttl P now).1 t (some Q) now2).1 =
        .page 403 "密码错误") ∧
    ((download_share_post H fs storage
        (share_endpoint H store t path ttl P now).1 t none now2).1 =
      .page 403 "密码错误") := by
  have hget : storeGet (share_endpoint H store t path ttl P now).1 t =
      some (share_endpoint H store t path ttl P now).2.1 :=
    storeGet_storeInsert t _ store
  have hph : (share_endpoint H store t path ttl P now).2.1.pw_hash =
      some (hash_pw H P) := by
    rw [show (share_endpoint H store t path ttl P now).2.1.pw_hash =
      (if P ≠ "" then some (hash_pw H P) else none) from rfl]
    rw [if_pos hP]
  refine ⟨?_, ?_, ?_⟩
  · rw [download_share_post_eq H fs storage _ t (some P) now2 _ hget,
      if_neg (by simp [hlive]), hph]
    simp only [Option.getD_some]
    rw [if_neg hh, if_neg (fun hor => hor.elim hP fun hne => hne rfl)]
    rfl
  · intro Q hQ
    rw [download_share_post_eq H fs storage _ t (some Q) now2 _ hget,
      if_neg (by simp [hlive]), hph]
    simp only [Option.getD_some]
    rw [if_neg hh]
    by_cases hQe : Q = ""
    · rw [if_pos (Or.inl hQe)]
    · rw [if_pos (Or.inr (hInj.ne hQ))]
  · rw [download_share_post_eq H fs storage _ t none now2 _ hget,
      if_neg (by simp [hlive]), hph]
    simp [hh]

/-- Witness for C9: with the digest modelled as the identity on
password-plus-secret (injective), the right password serves the file,
while a wrong one and an absent one fail with the password error. -/
theorem C9_witness :
    ((download_share_post (fun s => s) [] ["r"]
        (share_endpoint (fun s => s) [] "tok" "a.txt" 0 "pw1" 100).1
        "tok" (some "pw1") 200).1 =
      .serve (download [] ["r"] "a.txt")) ∧
    ((download_share_post (fun s => s) [] ["r"]
        (share_endpoint (fun s => s) [] "tok" "a.txt" 0 "pw1" 100).1
        "tok" (some "bad") 200).1 = .page 403 "密码错误") ∧
    ((download_share_post (fun s => s) [] ["r"]
        (share_endpoint (fun s => s) [] "tok" "a.txt" 0 "pw1" 100).1
        "tok" none 200).1 = .page 403 "密码错误") := by
  have h := C9_claim (fun s => s)
    (fun a b hab => append_SECRET_KEY_injective hab)
    [] "tok" "a.txt" 0 "pw1" 100 [] ["r"] 200
    (by decide) (by decide) (by decide)
  exact ⟨h.1, h.2.1 "bad" (by decide), h.2.2⟩

/-- C10: the durable share file lives at relative path `shares.json`
directly inside the storage root, so `safe_path` resolves it
successfully, and the public download route serves the whole share table
— tokens, target paths and password digests — to any caller. -/
theorem C10_claim (storage : List String) (fs : Fs)
    (toks : List (String × Int)) (cookie : Option String) (now : Int)
    (c : String)
    (hfile : readFile fs (SHARE_FILE storage) = some c)
    (hnd : isDir fs (SHARE_FILE storage) = false) :
    safe_path storage "shares.json" = some (SHARE_FILE storage) ∧
    handle_download toks cookie now fs storage "shares.json" =
      .file (some c) := by
  have hres : resolveComponents storage (splitSlash (lstripSlash "shares.json"))
      = SHARE_FILE storage := by
    rw [show splitSlash (lstripSlash "shares.json") = ["shares.json"]
      from by decide]
    rw [resolveComponents_plain storage "shares.json" [] (by decide) (by decide)]
    rfl
  have hsp : safe_path storage "shares.json" = some (SHARE_FILE storage) := by
    simp only [safe_path, hres]
    rw [if_pos (show startswith (pathStr storage) (pathStr (SHARE_FILE storage))
      = true from startswith_pathStr_append storage ["shares.json"])]
  refine ⟨hsp, ?_⟩
  simp [handle_download, download, hsp, hnd, hfile]

/-- Witness for C10: with the share file stored under the root, the
anonymous download of `shares.json` returns the serialized share
table. -/
theorem C10_witness :
    safe_path ["srv", "storage"] "shares.json" =
      some ["srv", "storage", "shares.json"] ∧
    handle_download [] none 0
      [(["srv", "storage", "shares.json"], "tbl")]
      ["srv", "storage"] "shares.json" = .file (some "tbl") := by
  exact C10_claim ["srv", "storage"]
    [(["srv", "storage", "shares.json"], "tbl")] [] none 0 "tbl"
    (by decide) (by decide)

end FastPan
